import Mathlib

/-!
Verification of the TabHibernate inactivity-decision engine.

Shallow embedding of the background script (src/unnamed/part_004; where the
older revision src/background.js differs, a `Bg`-suffixed variant embeds it)
and of the content script (src/unnamed/part_005).  Timestamps are integers
(milliseconds), JavaScript numeric arithmetic on scores and thresholds is
modelled with rational numbers, and the host URL parser is modelled by the
`JsUrl` type below.
-/

/-- Model of a JavaScript `url` value as consumed through `new URL(url).hostname`:
`nullish` covers `null` / `undefined` / `""` (falsy, so `!url` is true),
`malformed` is a truthy string on which the `URL` constructor throws, and
`parsed h` is a truthy string whose canonical hostname is `h`.  For web URLs the
host platform canonicalizes the hostname to lower case, so concrete instances
below use lower-case hostnames. -/
inductive JsUrl where
  | nullish
  | malformed
  | parsed (host : String)
deriving DecidableEq, Repr

/-- The hostname produced by `new URL(url).hostname`, `none` when the
constructor throws (or the argument is nullish, since `new URL(null)` and
`new URL("")` also throw). -/
def JsUrl.hostname : JsUrl → Option String
  | .parsed h => some h
  | _ => none

/-- One Domain Usage Pattern record, as created by `trackTabDomain`
(src/unnamed/part_004 lines 141-162): counters plus the last-active timestamp
and the cached importance score.  `totalActiveTime` is an integer because the
source adds the raw difference `now - lastActiveTime`, which can be negative. -/
structure UsagePattern where
  openCount : Nat
  interactionCount : Nat
  totalActiveTime : Int
  lastActiveTime : Int
  importance : ℚ
deriving DecidableEq, Repr

/-- The `tabUsagePatterns` object: hostname-keyed, insertion ordered. -/
abbrev Patterns := List (String × UsagePattern)

/-- The `tabActivity` object (the Tab Activity Ledger): tab-id keyed
last-active timestamps.  In the source each entry is a bare timestamp
(`tabActivity[tab.id] = Date.now()`); there is no record with further fields. -/
abbrev Activity := List (Nat × Int)

/-- JavaScript object property read `m[key]`: `none` models `undefined`. -/
def objGet {α β : Type} [DecidableEq α] : List (α × β) → α → Option β
  | [], _ => none
  | (k, v) :: rest, key => if k = key then some v else objGet rest key

/-- In-place mutation of the property `key` of a JavaScript object
(key order is preserved; only an existing binding is rewritten). -/
def objUpdate {α β : Type} [DecidableEq α] (m : List (α × β)) (key : α) (f : β → β) :
    List (α × β) :=
  m.map fun kv => if kv.1 = key then (kv.1, f kv.2) else kv

/-- The relevant fields of the process-wide `settings` record
(src/unnamed/part_004 lines 10-19).  `inactivityThreshold` is in minutes and
rational because one revision ships the fractional default `0.1`. -/
structure Settings where
  enabled : Bool
  inactivityThreshold : ℚ
  excludePinnedTabs : Bool
  excludedDomains : List String
  adaptiveMode : Bool
  learningPeriod : Bool
deriving DecidableEq, Repr

/-- The fields of a platform tab object that the sweep reads. -/
structure Tab where
  id : Nat
  active : Bool
  pinned : Bool
  url : JsUrl
deriving DecidableEq, Repr

/-- `IMPORTANCE_INTERACTION_WEIGHT` (src/unnamed/part_004 line 4). -/
def IMPORTANCE_INTERACTION_WEIGHT : ℚ := 3 / 2

/-- `IMPORTANCE_THRESHOLD_SKIP_HIBERNATE` (src/unnamed/part_004 line 5). -/
def IMPORTANCE_THRESHOLD_SKIP_HIBERNATE : ℚ := 10

/-- `IMPORTANCE_THRESHOLD_AUTO_EXCLUDE` (src/unnamed/part_004 line 6). -/
def IMPORTANCE_THRESHOLD_AUTO_EXCLUDE : ℚ := 20

/-- The importance score expression shared verbatim by `isImportantTab`
(src/unnamed/part_004 lines 273-275) and `analyzeUsagePatterns` (lines 334-336):
`(interactionCount / Math.max(1, openCount)) * IMPORTANCE_INTERACTION_WEIGHT +
 totalActiveTime / (1000 * 60 * Math.max(1, openCount))`. -/
def importanceScore (p : UsagePattern) : ℚ :=
  (p.interactionCount : ℚ) / max 1 (p.openCount : ℚ) * IMPORTANCE_INTERACTION_WEIGHT +
    (p.totalActiveTime : ℚ) / (1000 * 60 * max 1 (p.openCount : ℚ))

/-- `trackTabDomain` of src/unnamed/part_004 lines 141-162: on a parse failure
the catch block makes it a no-op; a fresh pattern is created with
`openCount: 0` (the source comment says "Start at 0, increment below" but no
increment follows for the fresh branch); an existing pattern only has its
`openCount` incremented. -/
def trackTabDomain (patterns : Patterns) (url : JsUrl) (now : Int) : Patterns :=
  match url.hostname with
  | none => patterns
  | some domain =>
    match objGet patterns domain with
    | none =>
      patterns ++ [(domain,
        { openCount := 0, interactionCount := 0, totalActiveTime := 0,
          lastActiveTime := now, importance := 0 })]
    | some _ => objUpdate patterns domain fun p => { p with openCount := p.openCount + 1 }

/-- `trackTabDomain` of the older revision src/background.js lines 119-140:
identical except that a fresh pattern starts with `openCount: 1`. -/
def trackTabDomainBg (patterns : Patterns) (url : JsUrl) (now : Int) : Patterns :=
  match url.hostname with
  | none => patterns
  | some domain =>
    match objGet patterns domain with
    | none =>
      patterns ++ [(domain,
        { openCount := 1, interactionCount := 0, totalActiveTime := 0,
          lastActiveTime := now, importance := 0 })]
    | some _ => objUpdate patterns domain fun p => { p with openCount := p.openCount + 1 }

/-- `trackTabActivation` of src/unnamed/part_004 lines 179-197 (identical in
src/background.js lines 157-175): for an existing pattern, when the stored
`lastActiveTime` is truthy (nonzero) the raw difference `now - lastActiveTime`
is added to `totalActiveTime` with no clamping, then `lastActiveTime` is set
to `now`.  The function receives only the url; it has no session-start
parameter. -/
def trackTabActivation (patterns : Patterns) (url : JsUrl) (now : Int) : Patterns :=
  match url.hostname with
  | none => patterns
  | some domain =>
    match objGet patterns domain with
    | none => patterns
    | some _ =>
      objUpdate patterns domain fun p =>
        { p with
          totalActiveTime :=
            if p.lastActiveTime ≠ 0 then p.totalActiveTime + (now - p.lastActiveTime)
            else p.totalActiveTime,
          lastActiveTime := now }

/-- `isImportantTab` of src/unnamed/part_004 lines 265-281: nullish url and
parse failures leave the score at 0, a missing pattern leaves it at 0,
otherwise the score is `importanceScore`; the result is the strict comparison
`score > IMPORTANCE_THRESHOLD_SKIP_HIBERNATE`. -/
def isImportantTab (patterns : Patterns) (url : JsUrl) : Bool :=
  match url with
  | .nullish => false
  | _ =>
    let score : ℚ :=
      match url.hostname with
      | none => 0
      | some domain =>
        match objGet patterns domain with
        | none => 0
        | some p => importanceScore p
    decide (score > IMPORTANCE_THRESHOLD_SKIP_HIBERNATE)

/-- Whether the character list `pat` occurs as a prefix of `l`
(both lists character by character, case sensitive). -/
def seqIsPrefOf {α : Type} [DecidableEq α] : List α → List α → Bool
  | [], _ => true
  | _ :: _, [] => false
  | a :: pat, b :: l => if a = b then seqIsPrefOf pat l else false

/-- Whether the character list `pat` occurs contiguously anywhere inside `l`. -/
def seqOccursIn {α : Type} [DecidableEq α] (pat : List α) : List α → Bool
  | [] => pat.isEmpty
  | b :: l => seqIsPrefOf pat (b :: l) || seqOccursIn pat l

/-- JavaScript `s.includes(sub)`: case-sensitive substring containment. -/
def jsIncludes (s sub : String) : Bool :=
  seqOccursIn sub.toList s.toList

/-- `isExcludedDomain` of src/unnamed/part_004 lines 284-294 (identical in
src/background.js lines 300-310): false for a nullish url or an empty
excluded-domain list; on a parse failure the catch returns false; otherwise
`excludedDomains.some((domain) => hostname.includes(domain))` — a
case-sensitive substring test against the canonical hostname. -/
def isExcludedDomain (s : Settings) (url : JsUrl) : Bool :=
  match url with
  | .nullish => false
  | _ =>
    if s.excludedDomains.isEmpty then false
    else
      match url.hostname with
      | none => false
      | some hostname => s.excludedDomains.any fun domain => jsIncludes hostname domain

/-- `getAdaptiveThreshold` of src/unnamed/part_004 lines 255-262: returns the
base `settings.inactivityThreshold` unmodified. -/
def getAdaptiveThreshold (s : Settings) : ℚ :=
  s.inactivityThreshold

/-- The effective threshold in milliseconds computed at the top of
`checkInactiveTabs` (src/unnamed/part_004 lines 214-215). -/
def effectiveThresholdMs (s : Settings) : ℚ :=
  (if s.adaptiveMode && !s.learningPeriod then getAdaptiveThreshold s
   else s.inactivityThreshold) * 60 * 1000

/-- The per-tab decision body of the sweep loop (src/unnamed/part_004 lines
217-251): `true` exactly when the iteration reaches `await unloadTab(tab)`.
`!tabActivity[tab.id]` is a JavaScript falsiness test, so both a missing entry
and a stored timestamp of 0 skip the tab. -/
def tabEligible (s : Settings) (patterns : Patterns) (activity : Activity)
    (now : Int) (tab : Tab) : Bool :=
  if tab.active then false
  else
    match objGet activity tab.id with
    | none => false
    | some lastActive =>
      if lastActive = 0 then false
      else if s.excludePinnedTabs && tab.pinned then false
      else if isExcludedDomain s tab.url then false
      else if s.adaptiveMode && !s.learningPeriod && isImportantTab patterns tab.url then false
      else decide ((now - lastActive : ℚ) > effectiveThresholdMs s)

/-- `checkInactiveTabs` of src/unnamed/part_004 lines 209-252, reduced to its
decision content: the list of enumerated tabs on which `unloadTab` is invoked,
in enumeration order.  When `settings.enabled` is false the function returns
before enumerating.  (`unloadTab` mutates none of the inputs read here, so the
per-tab decisions are independent.) -/
def checkInactiveTabs (s : Settings) (patterns : Patterns) (activity : Activity)
    (now : Int) (tabs : List Tab) : List Tab :=
  if !s.enabled then [] else tabs.filter (tabEligible s patterns activity now)

/-- The observable call log of `isImportantTab` during one sweep: the urls
passed to it, in order.  In the source (src/unnamed/part_004 lines 234-242)
`isImportantTab(tab.url)` is evaluated exactly when the iteration passes the
active / ledger / pinned / excluded-domain guards and
`settings.adaptiveMode && !settings.learningPeriod` holds. -/
def importanceCheckCalls (s : Settings) (activity : Activity) (tabs : List Tab) :
    List JsUrl :=
  if !s.enabled then []
  else
    tabs.filterMap fun tab =>
      if tab.active then none
      else
        match objGet activity tab.id with
        | none => none
        | some lastActive =>
          if lastActive = 0 then none
          else if s.excludePinnedTabs && tab.pinned then none
          else if isExcludedDomain s tab.url then none
          else if s.adaptiveMode && !s.learningPeriod then some tab.url
          else none

/-- The spread `[...new Set(l)]` used in `analyzeUsagePatterns`: first-occurrence
deduplication preserving insertion order; `seen` accumulates elements already
emitted. -/
def jsSetDedup (seen : List String) : List String → List String
  | [] => []
  | d :: rest => if d ∈ seen then jsSetDedup seen rest else d :: jsSetDedup (d :: seen) rest

/-- The importance recomputation performed on every pattern by the loop of
`analyzeUsagePatterns` (src/unnamed/part_004 lines 333-337): each pattern's
`importance` field is overwritten with its freshly computed `importanceScore`. -/
def recomputeImportance (patterns : Patterns) : Patterns :=
  patterns.map fun dp => (dp.1, { dp.2 with importance := importanceScore dp.2 })

/-- The `domainsToExclude` list collected by the same loop (src/unnamed/part_004
lines 331-342): domains whose score strictly exceeds
`IMPORTANCE_THRESHOLD_AUTO_EXCLUDE` and which `settings.excludedDomains` does
not already include, in pattern-table order. -/
def domainsToExclude (s : Settings) (patterns : Patterns) : List String :=
  patterns.filterMap fun dp =>
    if importanceScore dp.2 > IMPORTANCE_THRESHOLD_AUTO_EXCLUDE ∧ dp.1 ∉ s.excludedDomains
    then some dp.1 else none

/-- `analyzeUsagePatterns` of src/unnamed/part_004 lines 327-352 as a pure state
transformer on `(settings, tabUsagePatterns)`: a gate returns both unchanged
unless `adaptiveMode && !learningPeriod`; otherwise every pattern's importance
is recomputed, and, only when `domainsToExclude` is nonempty, `excludedDomains`
becomes `[...new Set([...excludedDomains, ...domainsToExclude])]`.  (The source
interleaves the recomputation and the collection in one loop over the table;
the collection reads only the untouched counter fields and the not-yet-updated
`settings.excludedDomains`, so the split into the two helpers above is exact.) -/
def analyzeUsagePatterns (s : Settings) (patterns : Patterns) : Settings × Patterns :=
  if !s.adaptiveMode || s.learningPeriod then (s, patterns)
  else
    (if (domainsToExclude s patterns).isEmpty then s
     else { s with
            excludedDomains :=
              jsSetDedup [] (s.excludedDomains ++ domainsToExclude s patterns) },
     recomputeImportance patterns)

/-- The state snapshot the content script captures (`saveTabState`,
src/unnamed/part_005 lines 18-27): current url, vertical scroll position and
capture timestamp. -/
structure TabState where
  url : String
  scroll : Int
  timestamp : Int
deriving DecidableEq, Repr

/-- The reply awaited from `chrome.tabs.sendMessage(tab.id, {type: "saveState"})`:
a success flag and an optional state payload (`none` models a null/undefined
`response.state`, which is falsy). -/
structure SaveStateResponse where
  success : Bool
  state : Option TabState
deriving DecidableEq, Repr

/-- Outcome of the `saveState` message round-trip: the promise either rejects
(no content script, e.g. a privileged page) or resolves, possibly with an
undefined response (`resolved none`). -/
inductive SendOutcome where
  | rejected
  | resolved (response : Option SaveStateResponse)
deriving DecidableEq, Repr

/-- Observable effects of one `unloadTab` run: the storage write performed for
the snapshot (keyed by the tab id), the `chrome.tabs.discard` call, and whether
the outer catch logged an error. -/
structure UnloadTrace where
  storedFor : Option (Nat × TabState)
  discardedId : Option Nat
  errorLogged : Bool
deriving DecidableEq, Repr

/-- `unloadTab` of src/unnamed/part_004 lines 297-324.  The `saveState` send is
wrapped in an inner try/catch, so a rejected send only leaves `response` null;
the snapshot write happens iff `response && response.success && response.state`;
`chrome.tabs.discard(tab.id)` is then awaited.  `storeOk` / `discardOk` model
whether the storage write / the discard call resolve; a rejection of either
reaches the outer catch, which logs an error (so a discard rejection aborts
nothing further — the function ends either way, with no other state change). -/
def unloadTab (tab : Tab) (send : SendOutcome) (storeOk discardOk : Bool) : UnloadTrace :=
  let response : Option SaveStateResponse :=
    match send with
    | .rejected => none
    | .resolved r => r
  let toStore : Option TabState :=
    match response with
    | none => none
    | some r => if r.success then r.state else none
  match toStore with
  | none => { storedFor := none, discardedId := some tab.id, errorLogged := !discardOk }
  | some st =>
    if storeOk then
      { storedFor := some (tab.id, st), discardedId := some tab.id, errorLogged := !discardOk }
    else
      { storedFor := some (tab.id, st), discardedId := none, errorLogged := true }

/-- One sweep step around `unloadTab`, carrying the Tab Activity Ledger through
it.  The source `unloadTab` (src/unnamed/part_004 lines 297-324; likewise
src/background.js lines 313-325) contains no read of or assignment to
`tabActivity`, so the ledger passes through unchanged whatever the outcome. -/
def unloadTabStep (activity : Activity) (tab : Tab) (send : SendOutcome)
    (storeOk discardOk : Bool) : Activity × UnloadTrace :=
  (activity, unloadTab tab send storeOk discardOk)

/-- The page-side inputs the content script reads when capturing state. -/
structure PageState where
  url : String
  scrollY : Int
  now : Int
deriving DecidableEq, Repr

/-- `saveTabState` of src/unnamed/part_005 lines 18-27: the snapshot object
`{ url: window.location.href, scroll: window.scrollY, timestamp: Date.now() }`. -/
def saveTabState (pg : PageState) : TabState :=
  { url := pg.url, scroll := pg.scrollY, timestamp := pg.now }

/-- The content script's `chrome.runtime.onMessage` listener
(src/unnamed/part_005 lines 75-81): for a `saveState` request it always replies
`{ success: true, state }` with the freshly captured state; other message types
produce no reply from this listener. -/
def contentOnMessage (pg : PageState) (msgType : String) : Option SaveStateResponse :=
  if msgType = "saveState" then some { success := true, state := some (saveTabState pg) }
  else none

/-- Sample sweep configuration: extension enabled, 10-minute threshold,
non-adaptive (learning period still on). -/
def sampleSettings : Settings :=
  { enabled := true, inactivityThreshold := 10, excludePinnedTabs := true,
    excludedDomains := [], adaptiveMode := false, learningPeriod := true }

/-- Sample inactive, unpinned tab. -/
def sampleTab : Tab :=
  { id := 101, active := false, pinned := false, url := .parsed "inactive.com" }

/-- Sample ledger: tab 101 last active at time 1. -/
def sampleActivity : Activity := [(101, 1)]

/-- Sample captured snapshot. -/
def sampleState : TabState :=
  { url := "http://inactive.com/", scroll := 42, timestamp := 601001 }

/-- Claim C1: sweep soundness.  Whenever a sweep invocation reaches
`unloadTab` on an enumerated tab, that tab was not active, had a (truthy)
Tab Activity Ledger entry, was not skipped by the pinned-tab or
excluded-domain rules, and its inactive duration strictly exceeded the
effective threshold; in particular an active tab or a tab without a ledger
entry is never unloaded. -/
theorem sweep_soundness (s : Settings) (patterns : Patterns) (activity : Activity)
    (now : Int) (tabs : List Tab) (tab : Tab)
    (h : tab ∈ checkInactiveTabs s patterns activity now tabs) :
    tab.active = false ∧
    ∃ lastActive, objGet activity tab.id = some lastActive ∧ lastActive ≠ 0 ∧
      (s.excludePinnedTabs && tab.pinned) = false ∧
      isExcludedDomain s tab.url = false ∧
      (now - lastActive : ℚ) > effectiveThresholdMs s := by
  unfold checkInactiveTabs at h
  split at h
  · simp at h
  · obtain ⟨-, helig⟩ := List.mem_filter.mp h
    unfold tabEligible at helig
    split at helig
    · simp at helig
    · rename_i hactive
      split at helig
      · simp at helig
      · rename_i lastActive hlook
        split at helig
        · simp at helig
        · rename_i hzero
          split at helig
          · simp at helig
          · rename_i hpin
            split at helig
            · simp at helig
            · rename_i hexcl
              split at helig
              · simp at helig
              · refine ⟨by simpa using hactive, lastActive, hlook, hzero, ?_, ?_, ?_⟩
                · simpa using hpin
                · simpa using hexcl
                · exact of_decide_eq_true helig

/-- Witness for C1: tab 101, last active at time 1, checked at time 601001
with a 10-minute threshold, is unloaded, and the soundness conclusions hold. -/
theorem sweep_soundness_witness :
    sampleTab.active = false ∧
    ∃ lastActive, objGet sampleActivity sampleTab.id = some lastActive ∧ lastActive ≠ 0 ∧
      (sampleSettings.excludePinnedTabs && sampleTab.pinned) = false ∧
      isExcludedDomain sampleSettings sampleTab.url = false ∧
      (601001 - lastActive : ℚ) > effectiveThresholdMs sampleSettings :=
  sweep_soundness sampleSettings [] sampleActivity 601001 [sampleTab] sampleTab
    (by
      simp only [checkInactiveTabs, tabEligible, sampleSettings, sampleTab, sampleActivity,
        objGet, isExcludedDomain, effectiveThresholdMs, getAdaptiveThreshold,
        List.filter, decide_eq_true_eq]
      norm_num)

/-- Claim C2: state-capture failure never blocks unloading.  If the `saveState`
send rejects, or the response reports `success = false`, or carries no state
payload, the snapshot write is skipped while `chrome.tabs.discard` is still
called with the tab's id; and the snapshot write happens exactly when the
response has `success = true` and a non-null state. -/
theorem capture_failure_never_blocks (tab : Tab) (send : SendOutcome)
    (storeOk discardOk : Bool) :
    (send = .rejected →
      (unloadTab tab send storeOk discardOk).storedFor = none ∧
      (unloadTab tab send storeOk discardOk).discardedId = some tab.id) ∧
    (∀ r, send = .resolved (some r) → (r.success = false ∨ r.state = none) →
      (unloadTab tab send storeOk discardOk).storedFor = none ∧
      (unloadTab tab send storeOk discardOk).discardedId = some tab.id) ∧
    ((∃ st, (unloadTab tab send storeOk discardOk).storedFor = some (tab.id, st)) ↔
      (∃ r st, send = .resolved (some r) ∧ r.success = true ∧ r.state = some st)) := by
  refine ⟨?_, ?_, ?_⟩
  · rintro rfl
    simp [unloadTab]
  · rintro ⟨rsucc, rstate⟩ rfl hfail
    rcases hfail with h | h
    · subst h
      cases rstate <;> simp [unloadTab]
    · subst h
      cases rsucc <;> simp [unloadTab]
  · constructor
    · rintro ⟨st, hst⟩
      cases send with
      | rejected => simp [unloadTab] at hst
      | resolved r =>
        cases r with
        | none => simp [unloadTab] at hst
        | some rr =>
          obtain ⟨rsucc, rstate⟩ := rr
          cases rsucc with
          | false => simp [unloadTab] at hst
          | true =>
            cases rstate with
            | none => simp [unloadTab] at hst
            | some st' => exact ⟨⟨true, some st'⟩, st', rfl, rfl, rfl⟩
    · rintro ⟨r, st, rfl, hsucc, hstate⟩
      obtain ⟨rsucc, rstate⟩ := r
      subst hsucc
      subst hstate
      cases storeOk <;> exact ⟨st, rfl⟩

/-- Witness for C2: a rejected send skips the snapshot write but still
discards tab 101, and the persistence condition is the stated one. -/
theorem capture_failure_never_blocks_witness :
    (unloadTab sampleTab .rejected true true).storedFor = none ∧
    (unloadTab sampleTab .rejected true true).discardedId = some sampleTab.id :=
  (capture_failure_never_blocks sampleTab .rejected true true).1 rfl

/-- Claim C3 (code evaluation): the source `unloadTab` leaves the Tab Activity
Ledger untouched under every outcome — in particular a successful discard does
not update the entry for the tab (the source ledger holds bare timestamps and
has no hibernated or hibernationTime field, and `unloadTab` performs no write
to it), contradicting the claimed `hibernated = true` update — while a discard
rejection does reach the outer catch, which logs an error. -/
theorem unload_never_marks_hibernated (activity : Activity) (tab : Tab)
    (send : SendOutcome) (storeOk discardOk : Bool) :
    (unloadTabStep activity tab send storeOk discardOk).1 = activity ∧
    (unloadTab tab send storeOk false).errorLogged = true := by
  refine ⟨rfl, ?_⟩
  cases send with
  | rejected => simp [unloadTab]
  | resolved r =>
    cases r with
    | none => simp [unloadTab]
    | some rr =>
      obtain ⟨rsucc, rstate⟩ := rr
      cases rsucc <;> cases rstate <;> cases storeOk <;> simp [unloadTab]

/-- Claim C10: for every `saveState` request the bundled content script replies
`success = true` with a non-null state holding exactly the current url, the
numeric scroll position and a capture timestamp; consequently, feeding that
reply to the engine's `unloadTab` always reaches the snapshot write, so the
explicit-failure branches are unreachable from this collaborator. -/
theorem content_script_never_fails (pg : PageState) (tab : Tab)
    (storeOk discardOk : Bool) :
    contentOnMessage pg "saveState" =
      some { success := true,
             state := some { url := pg.url, scroll := pg.scrollY, timestamp := pg.now } } ∧
    (unloadTab tab (.resolved (contentOnMessage pg "saveState")) storeOk discardOk).storedFor =
      some (tab.id, saveTabState pg) := by
  refine ⟨rfl, ?_⟩
  cases storeOk <;> rfl

/-- Pattern with 12 interactions over 10 opens and 5 seconds of active time:
the inputs of the repository's own importance test. -/
def heavyUsePattern : UsagePattern :=
  { openCount := 10, interactionCount := 12, totalActiveTime := 5000,
    lastActiveTime := 1, importance := 0 }

/-- Pattern whose source importance score is exactly the source threshold 10. -/
def boundaryPattern : UsagePattern :=
  { openCount := 1, interactionCount := 4, totalActiveTime := 240000,
    lastActiveTime := 1, importance := 0 }

/-- Claim C5 (code evaluation): the source importance formula uses weight 3/2
and threshold 10, not 0.6 and 0.7.  `heavyUsePattern` scores 217/120 (about
1.81) and is classified NOT important, whereas the claim's formula gives
(12/10)*0.6 = 0.72 > 0.7, i.e. important (the repository's own test expects
true here); the comparison is strict at the source's own boundary: a score of
exactly 10 is not important. -/
theorem importance_constants_eval :
    importanceScore heavyUsePattern = 217 / 120 ∧
    isImportantTab [("example.com", heavyUsePattern)] (.parsed "example.com") = false ∧
    importanceScore boundaryPattern = 10 ∧
    isImportantTab [("boundary.com", boundaryPattern)] (.parsed "boundary.com") = false := by
  refine ⟨?_, ?_, ?_, ?_⟩ <;>
    simp [importanceScore, isImportantTab, heavyUsePattern, boundaryPattern, objGet,
      JsUrl.hostname, IMPORTANCE_INTERACTION_WEIGHT, IMPORTANCE_THRESHOLD_SKIP_HIBERNATE,
      decide_eq_true_eq] <;>
    norm_num

/-- Claim C6 (code evaluation): `isExcludedDomain` performs a case-sensitive
substring test of each entry against the canonical (lower-case) hostname.  An
entry carrying an upper-case letter, `"Example.com"`, fails to match the
hostname `example.com` (the repository's own test expects a case-insensitive
match); a lower-case entry matches; the substring semantics also makes
`example.com` match the hostname `sub.example.com`; and a malformed URL
yields false. -/
theorem excluded_domain_matching_eval :
    isExcludedDomain { sampleSettings with excludedDomains := ["Example.com"] }
      (.parsed "example.com") = false ∧
    isExcludedDomain { sampleSettings with excludedDomains := ["example.com"] }
      (.parsed "example.com") = true ∧
    isExcludedDomain { sampleSettings with excludedDomains := ["example.com"] }
      (.parsed "sub.example.com") = true ∧
    isExcludedDomain { sampleSettings with excludedDomains := ["example.com"] }
      .malformed = false :=
  ⟨rfl, rfl, rfl, rfl⟩

/-- Claim C7 (code evaluation): `trackTabDomain` of src/unnamed/part_004
creates a fresh pattern with `openCount = 0` (not 1), and on a repeat visit
both revisions increment `openCount` but leave `lastActiveTime` at its old
value (1000) instead of refreshing it to the current time (2000). -/
theorem track_domain_eval :
    trackTabDomain [] (.parsed "trackme.com") 1000 =
      [("trackme.com",
        { openCount := 0, interactionCount := 0, totalActiveTime := 0,
          lastActiveTime := 1000, importance := 0 })] ∧
    trackTabDomain
      [("trackme.com",
        { openCount := 0, interactionCount := 0, totalActiveTime := 0,
          lastActiveTime := 1000, importance := 0 })] (.parsed "trackme.com") 2000 =
      [("trackme.com",
        { openCount := 1, interactionCount := 0, totalActiveTime := 0,
          lastActiveTime := 1000, importance := 0 })] ∧
    trackTabDomainBg
      [("trackme.com",
        { openCount := 1, interactionCount := 0, totalActiveTime := 0,
          lastActiveTime := 1000, importance := 0 })] (.parsed "trackme.com") 2000 =
      [("trackme.com",
        { openCount := 2, interactionCount := 0, totalActiveTime := 0,
          lastActiveTime := 1000, importance := 0 })] :=
  ⟨rfl, rfl, rfl⟩

/-- Claim C8 (code evaluation): `trackTabActivation` adds the raw difference
`now - lastActiveTime` without clamping; with a stored last-active time of
15000 and a current time of 10000 the pattern's `totalActiveTime` drops from
1000 to -4000, i.e. becomes negative. -/
theorem activation_unclamped_eval :
    trackTabActivation
      [("trackme.com",
        { openCount := 1, interactionCount := 0, totalActiveTime := 1000,
          lastActiveTime := 15000, importance := 0 })] (.parsed "trackme.com") 10000 =
      [("trackme.com",
        { openCount := 1, interactionCount := 0, totalActiveTime := -4000,
          lastActiveTime := 10000, importance := 0 })] :=
  rfl

/-- Sample adaptive configuration: enabled, adaptive mode on, learning over. -/
def adaptiveSettings : Settings :=
  { enabled := true, inactivityThreshold := 10, excludePinnedTabs := true,
    excludedDomains := [], adaptiveMode := true, learningPeriod := false }

/-- Sample patterns making `important.com` important (score 15 > 10). -/
def importantPatterns : Patterns :=
  [("important.com",
    { openCount := 1, interactionCount := 10, totalActiveTime := 0,
      lastActiveTime := 1, importance := 0 })]

/-- Sample inactive tab on the important domain. -/
def importantTab : Tab :=
  { id := 301, active := false, pinned := false, url := .parsed "important.com" }

/-- Claim C4: observable call-count contract for importance checking.  In any
sweep, `isImportantTab` is called on no url at all when `adaptiveMode` is off
or `learningPeriod` is on; and when adaptive mode is active (and the sweep is
enabled), a tab that reaches the importance check with `isImportantTab` true
is skipped — not unloaded — and `isImportantTab` was called with its url. -/
theorem importance_call_count_contract :
    (∀ (s : Settings) (activity : Activity) (tabs : List Tab),
      s.adaptiveMode = false ∨ s.learningPeriod = true →
      importanceCheckCalls s activity tabs = []) ∧
    (∀ (s : Settings) (patterns : Patterns) (activity : Activity) (now : Int)
        (tabs : List Tab) (tab : Tab) (lastActive : Int),
      s.enabled = true → tab ∈ tabs → tab.active = false →
      objGet activity tab.id = some lastActive → lastActive ≠ 0 →
      (s.excludePinnedTabs && tab.pinned) = false →
      isExcludedDomain s tab.url = false →
      s.adaptiveMode = true → s.learningPeriod = false →
      isImportantTab patterns tab.url = true →
      tab ∉ checkInactiveTabs s patterns activity now tabs ∧
      tab.url ∈ importanceCheckCalls s activity tabs) := by
  constructor
  · intro s activity tabs hb
    have hcond : (s.adaptiveMode && !s.learningPeriod) = false := by
      rcases hb with h | h <;> simp [h]
    unfold importanceCheckCalls
    split
    · rfl
    · apply List.filterMap_eq_nil_iff.mpr
      intro tab _
      by_cases hact : tab.active = true
      · rw [if_pos hact]
      · rw [if_neg hact]
        cases hlook : objGet activity tab.id with
        | none => rfl
        | some lastActive =>
          dsimp only
          by_cases hz : lastActive = 0
          · rw [if_pos hz]
          · rw [if_neg hz]
            by_cases hpin : (s.excludePinnedTabs && tab.pinned) = true
            · rw [if_pos hpin]
            · rw [if_neg hpin]
              by_cases hexcl : isExcludedDomain s tab.url = true
              · rw [if_pos hexcl]
              · rw [if_neg hexcl]
                rw [if_neg (by simp [hcond])]
  · intro s patterns activity now tabs tab lastActive henb htabs hact hlook hz hpin hexcl hA hL himp
    have helig : tabEligible s patterns activity now tab = false := by
      unfold tabEligible
      simp [hact, hlook, hz, hpin, hexcl, hA, hL, himp]
    constructor
    · intro hmem
      unfold checkInactiveTabs at hmem
      rw [if_neg (by simp [henb])] at hmem
      have := (List.mem_filter.mp hmem).2
      rw [helig] at this
      exact Bool.false_ne_true this
    · unfold importanceCheckCalls
      rw [if_neg (by simp [henb])]
      apply List.mem_filterMap.mpr
      refine ⟨tab, htabs, ?_⟩
      simp [hact, hlook, hz, hpin, hexcl, hA, hL]

/-- Witness for C4: with adaptive mode off the sample sweep performs no
importance check at all; in the adaptive configuration, the important tab 301
is skipped and its url was passed to the importance check. -/
theorem importance_call_count_contract_witness :
    importanceCheckCalls sampleSettings sampleActivity [sampleTab] = [] ∧
    (importantTab ∉
        checkInactiveTabs adaptiveSettings importantPatterns [(301, 1)] 999999 [importantTab] ∧
      importantTab.url ∈ importanceCheckCalls adaptiveSettings [(301, 1)] [importantTab]) :=
  ⟨importance_call_count_contract.1 sampleSettings sampleActivity [sampleTab] (Or.inl rfl),
   importance_call_count_contract.2 adaptiveSettings importantPatterns [(301, 1)] 999999
     [importantTab] importantTab 1 rfl (List.mem_singleton_self _) rfl rfl (by decide) rfl rfl
     rfl rfl
     (by
       simp [isImportantTab, importantPatterns, importantTab, objGet, importanceScore,
         IMPORTANCE_INTERACTION_WEIGHT, IMPORTANCE_THRESHOLD_SKIP_HIBERNATE,
         JsUrl.hostname, decide_eq_true_eq]
       norm_num)⟩

/-- Membership in the first-occurrence deduplication: an element is kept iff it
occurs in the input and was not already seen. -/
theorem mem_jsSetDedup (a : String) :
    ∀ (l seen : List String), a ∈ jsSetDedup seen l ↔ a ∈ l ∧ a ∉ seen := by
  intro l
  induction l with
  | nil => intro seen; simp [jsSetDedup]
  | cons d rest ih =>
    intro seen
    simp only [jsSetDedup]
    split
    · rename_i hd
      rw [ih seen]
      simp only [List.mem_cons]
      constructor
      · rintro ⟨ha, hs⟩
        exact ⟨Or.inr ha, hs⟩
      · rintro ⟨rfl | ha, hs⟩
        · exact absurd hd hs
        · exact ⟨ha, hs⟩
    · rename_i hd
      simp only [List.mem_cons, ih (d :: seen)]
      constructor
      · rintro (rfl | ⟨ha, hs⟩)
        · exact ⟨Or.inl rfl, hd⟩
        · exact ⟨Or.inr ha, fun h => hs (Or.inr h)⟩
      · rintro ⟨rfl | ha, hs⟩
        · exact Or.inl rfl
        · by_cases had : a = d
          · exact Or.inl had
          · exact Or.inr ⟨ha, fun h => h.elim had hs⟩

/-- The first-occurrence deduplication always yields a duplicate-free list. -/
theorem jsSetDedup_nodup : ∀ (l seen : List String), (jsSetDedup seen l).Nodup := by
  intro l
  induction l with
  | nil => intro seen; simp [jsSetDedup]
  | cons d rest ih =>
    intro seen
    simp only [jsSetDedup]
    split
    · exact ih seen
    · refine List.nodup_cons.mpr ⟨fun hmem => ?_, ih (d :: seen)⟩
      exact ((mem_jsSetDedup d rest (d :: seen)).mp hmem).2 (List.mem_cons_self d seen)

/-- Recomputing importance twice equals recomputing it once: the score reads
only the counter fields, never the cached importance. -/
theorem recomputeImportance_idem (patterns : Patterns) :
    recomputeImportance (recomputeImportance patterns) = recomputeImportance patterns := by
  unfold recomputeImportance
  rw [List.map_map]
  rfl

/-- The auto-exclusion collection is insensitive to the importance
recomputation, for the same reason. -/
theorem domainsToExclude_recompute (s : Settings) (patterns : Patterns) :
    domainsToExclude s (recomputeImportance patterns) = domainsToExclude s patterns := by
  unfold domainsToExclude recomputeImportance
  rw [List.filterMap_map]
  rfl

/-- Characterization of membership in `domainsToExclude`. -/
theorem mem_domainsToExclude (s : Settings) (patterns : Patterns) (x : String) :
    x ∈ domainsToExclude s patterns ↔
      (∃ dp ∈ patterns, dp.1 = x ∧
        importanceScore dp.2 > IMPORTANCE_THRESHOLD_AUTO_EXCLUDE) ∧
      x ∉ s.excludedDomains := by
  unfold domainsToExclude
  rw [List.mem_filterMap]
  constructor
  · rintro ⟨dp, hdp, hsome⟩
    by_cases hc : importanceScore dp.2 > IMPORTANCE_THRESHOLD_AUTO_EXCLUDE ∧
        dp.1 ∉ s.excludedDomains
    · rw [if_pos hc] at hsome
      cases hsome
      exact ⟨⟨dp, hdp, rfl, hc.1⟩, hc.2⟩
    · rw [if_neg hc] at hsome
      cases hsome
  · rintro ⟨⟨dp, hdp, rfl, hsc⟩, hnm⟩
    exact ⟨dp, hdp, by rw [if_pos ⟨hsc, hnm⟩]⟩

/-- Shape of `analyzeUsagePatterns` when the adaptive gate is open. -/
theorem analyze_active (s : Settings) (patterns : Patterns)
    (hA : s.adaptiveMode = true) (hL : s.learningPeriod = false) :
    analyzeUsagePatterns s patterns =
      (if (domainsToExclude s patterns).isEmpty then s
       else { s with
              excludedDomains :=
                jsSetDedup [] (s.excludedDomains ++ domainsToExclude s patterns) },
       recomputeImportance patterns) := by
  unfold analyzeUsagePatterns
  rw [if_neg (by simp [hA, hL])]

/-- `analyzeUsagePatterns` only ever rewrites `excludedDomains`; the mode and
learning flags pass through. -/
theorem analyze_preserves_mode (s : Settings) (patterns : Patterns) :
    (analyzeUsagePatterns s patterns).1.adaptiveMode = s.adaptiveMode ∧
    (analyzeUsagePatterns s patterns).1.learningPeriod = s.learningPeriod := by
  unfold analyzeUsagePatterns
  split
  · exact ⟨rfl, rfl⟩
  · split
    · exact ⟨rfl, rfl⟩
    · exact ⟨rfl, rfl⟩

/-- Everything previously excluded, and everything freshly collected, is in the
excluded-domain list after an active run. -/
theorem mem_analyze_excl (s : Settings) (patterns : Patterns)
    (hA : s.adaptiveMode = true) (hL : s.learningPeriod = false) (x : String)
    (hx : x ∈ s.excludedDomains ∨ x ∈ domainsToExclude s patterns) :
    x ∈ (analyzeUsagePatterns s patterns).1.excludedDomains := by
  rw [analyze_active s patterns hA hL]
  dsimp only
  split
  · rename_i htx
    rcases hx with h | h
    · exact h
    · rw [List.isEmpty_iff] at htx
      rw [htx] at h
      cases h
  · rcases hx with h | h
    · exact (mem_jsSetDedup x _ []).mpr
        ⟨List.mem_append.mpr (Or.inl h), List.not_mem_nil x⟩
    · exact (mem_jsSetDedup x _ []).mpr
        ⟨List.mem_append.mpr (Or.inr h), List.not_mem_nil x⟩

/-- An active run keeps `excludedDomains` duplicate-free (a gated run keeps it
unchanged). -/
theorem analyze_excl_nodup (s : Settings) (patterns : Patterns)
    (hnd : s.excludedDomains.Nodup) :
    (analyzeUsagePatterns s patterns).1.excludedDomains.Nodup := by
  unfold analyzeUsagePatterns
  split
  · exact hnd
  · split
    · exact hnd
    · exact jsSetDedup_nodup _ []

/-- A run never removes an excluded domain. -/
theorem analyze_excl_superset (s : Settings) (patterns : Patterns) :
    s.excludedDomains ⊆ (analyzeUsagePatterns s patterns).1.excludedDomains := by
  unfold analyzeUsagePatterns
  split
  · exact fun _ h => h
  · split
    · exact fun _ h => h
    · intro x hx
      exact (mem_jsSetDedup x _ []).mpr
        ⟨List.mem_append.mpr (Or.inl hx), List.not_mem_nil x⟩

/-- Running the analysis a second time with no intervening tracking calls
reproduces the first run's output exactly. -/
theorem analyze_second_run_eq (s : Settings) (patterns : Patterns)
    (hA : s.adaptiveMode = true) (hL : s.learningPeriod = false) :
    analyzeUsagePatterns (analyzeUsagePatterns s patterns).1
        (analyzeUsagePatterns s patterns).2 = analyzeUsagePatterns s patterns := by
  have hA1 : (analyzeUsagePatterns s patterns).1.adaptiveMode = true := by
    rw [(analyze_preserves_mode s patterns).1, hA]
  have hL1 : (analyzeUsagePatterns s patterns).1.learningPeriod = false := by
    rw [(analyze_preserves_mode s patterns).2, hL]
  have hsnd : (analyzeUsagePatterns s patterns).2 = recomputeImportance patterns := by
    rw [analyze_active s patterns hA hL]
  have htx2 : domainsToExclude (analyzeUsagePatterns s patterns).1
      (analyzeUsagePatterns s patterns).2 = [] := by
    rw [hsnd, domainsToExclude_recompute]
    apply List.eq_nil_iff_forall_not_mem.mpr
    intro x hx
    obtain ⟨⟨dp, hdp, rfl, hsc⟩, hnotin⟩ :=
      (mem_domainsToExclude _ patterns x).mp hx
    apply hnotin
    apply mem_analyze_excl s patterns hA hL
    by_cases hx0 : dp.1 ∈ s.excludedDomains
    · exact Or.inl hx0
    · exact Or.inr ((mem_domainsToExclude s patterns dp.1).mpr ⟨⟨dp, hdp, rfl, hsc⟩, hx0⟩)
  rw [analyze_active _ _ hA1 hL1, htx2]
  rw [if_pos (show (([] : List String).isEmpty) = true from rfl)]
  rw [hsnd, recomputeImportance_idem, ← hsnd]

/-- Claim C9: `analyzeUsagePatterns` is a no-op unless `adaptiveMode` is on and
`learningPeriod` is off; when enabled, a second back-to-back run reproduces the
first run's output exactly (same importance values, same excluded domains, no
new exclusions), and `excludedDomains` after a run is a duplicate-free superset
of its prior value (starting from a duplicate-free list, as every writer in the
repository maintains). -/
theorem analyze_gated_idempotent :
    (∀ (s : Settings) (patterns : Patterns),
      s.adaptiveMode = false ∨ s.learningPeriod = true →
      analyzeUsagePatterns s patterns = (s, patterns)) ∧
    (∀ (s : Settings) (patterns : Patterns),
      s.adaptiveMode = true → s.learningPeriod = false →
      s.excludedDomains.Nodup →
      analyzeUsagePatterns (analyzeUsagePatterns s patterns).1
          (analyzeUsagePatterns s patterns).2 = analyzeUsagePatterns s patterns ∧
      (analyzeUsagePatterns s patterns).1.excludedDomains.Nodup ∧
      s.excludedDomains ⊆ (analyzeUsagePatterns s patterns).1.excludedDomains) := by
  constructor
  · intro s patterns hb
    unfold analyzeUsagePatterns
    rw [if_pos (by rcases hb with h | h <;> simp [h])]
  · intro s patterns hA hL hnd
    exact ⟨analyze_second_run_eq s patterns hA hL,
           analyze_excl_nodup s patterns hnd,
           analyze_excl_superset s patterns⟩

/-- Witness for C9: a learning-period run is a no-op on the sample state, and
in the adaptive configuration the double-run equality, duplicate-freeness and
superset facts hold for the sample pattern table. -/
theorem analyze_gated_idempotent_witness :
    analyzeUsagePatterns sampleSettings importantPatterns =
      (sampleSettings, importantPatterns) ∧
    (analyzeUsagePatterns (analyzeUsagePatterns adaptiveSettings importantPatterns).1
        (analyzeUsagePatterns adaptiveSettings importantPatterns).2 =
      analyzeUsagePatterns adaptiveSettings importantPatterns ∧
     (analyzeUsagePatterns adaptiveSettings importantPatterns).1.excludedDomains.Nodup ∧
     adaptiveSettings.excludedDomains ⊆
       (analyzeUsagePatterns adaptiveSettings importantPatterns).1.excludedDomains) :=
  ⟨analyze_gated_idempotent.1 sampleSettings importantPatterns (Or.inl rfl),
   analyze_gated_idempotent.2 adaptiveSettings importantPatterns rfl rfl List.nodup_nil⟩
